import Mathlib

/-!
Verification development for the `realworld-gotham` user-account backend.

The source consists of a persistence layer (`src/conduit/users.rs`: `insert`,
`find`, `find_by_email_password`, diesel queries against the `users` table)
and an HTTP handler layer (`src/web/users.rs`: `register`, `login`,
`get_user`, plus the body-extraction helper `extract_json` and the
`bad_request` error constructor).

The database table, the `User`/`NewUser` structs (`models.rs`, `schema.rs`)
and the token minting function (`auth.rs`) are not part of the sources we
embed from; where a definition depends on them it is modelled from the
specification and says so in its doc comment.
-/

namespace RealworldGotham

/-- Modelled from the spec: `models.rs` is absent. `NewUser` is the transient
creation payload with `email`, `username`, `password`, all required strings. -/
structure NewUser where
  email : String
  username : String
  password : String
deriving DecidableEq, Repr

/-- Modelled from the spec: `models.rs` is absent. `User` is the persisted
entity: generated integer primary key `id`, `email`, `username`, plaintext
`password`, and an optional `token` populated only in API responses and never
persisted. -/
structure User where
  id : Int
  email : String
  username : String
  password : String
  token : Option String
deriving DecidableEq, Repr

/-- The diesel error type as used by this code: the handlers pattern-match
only on `NotFound`; every other storage fault (uniqueness violation,
connection failure, ...) is collapsed here into `DatabaseError`. -/
inductive DieselError where
  | NotFound
  | DatabaseError (info : String)
deriving DecidableEq, Repr

/-- The `users` relation together with the auto-increment counter of the
primary-key column.  Rows are kept in insertion order, matching the
append-only behaviour of the three operations. -/
structure Store where
  rows : List User
  nextId : Int
deriving Repr

/-- Well-formedness of a store reachable by this system: every assigned id is
below the auto-increment counter, and emails are pairwise distinct
(modelled from the spec: `schema.rs` is absent, the spec declares `email`
a unique column). -/
def Store.wf (s : Store) : Prop :=
  (∀ r ∈ s.rows, r.id < s.nextId) ∧ s.rows.Pairwise (fun a b => a.email ≠ b.email)

namespace Users

/-- `insert` from `src/conduit/users.rs`: `diesel::insert_into(users::table)
.values(&user).get_result(&conn)`.  The store assigns the primary key and
returns the complete stored record.  The uniqueness check on `email` is
modelled from the spec (`schema.rs` is absent; the spec declares the column
unique and insert "fails with a storage error if a uniqueness constraint
(email) is violated"). -/
def insert (s : Store) (user : NewUser) : Except DieselError (Store × User) :=
  if s.rows.any (fun r => r.email == user.email) then
    Except.error (DieselError.DatabaseError "unique constraint violation on users.email")
  else
    let stored : User :=
      { id := s.nextId, email := user.email, username := user.username,
        password := user.password, token := none }
    Except.ok ({ rows := s.rows ++ [stored], nextId := s.nextId + 1 }, stored)

/-- `find` from `src/conduit/users.rs`: `users.find(user_id).first(&conn)` —
point lookup by primary key; diesel's `first` returns `NotFound` when no row
matches. -/
def find (s : Store) (user_id : Int) : Except DieselError User :=
  match s.rows.find? (fun r => r.id == user_id) with
  | some u => Except.ok u
  | none => Except.error DieselError.NotFound

/-- `find_by_email_password` from `src/conduit/users.rs`:
`users.filter(email.eq(user_email)).filter(password.eq(user_password))
.first::<User>(&conn)` — first row whose email and password both match
exactly; `NotFound` when none does. -/
def find_by_email_password (s : Store) (user_email : String)
    (user_password : String) : Except DieselError User :=
  match s.rows.find? (fun r => r.email == user_email && r.password == user_password) with
  | some u => Except.ok u
  | none => Except.error DieselError.NotFound

end Users

/-! ### JSON values and (de)serialization

`serde_json::Value`-style JSON tree, enough to express the request bodies
and response bodies of the three handlers. -/

inductive Json where
  | null
  | bool (b : Bool)
  | num (n : Int)
  | str (s : String)
  | arr (elems : List Json)
  | obj (fields : List (String × Json))

/-- First binding of a key in a JSON object's field list. -/
def lookupField : List (String × Json) → String → Option Json
  | [], _ => none
  | (k, v) :: rest, key => if k == key then some v else lookupField rest key

/-- Field access on a JSON value (`none` on non-objects and missing keys). -/
def Json.getField : Json → String → Option Json
  | Json.obj fields, key => lookupField fields key
  | _, _ => none

/-- Extract a JSON string. -/
def Json.getStr : Json → Option String
  | Json.str s => some s
  | _ => none

/-- Whether a JSON value is an object carrying the given key. -/
def Json.hasField (j : Json) (key : String) : Bool :=
  (j.getField key).isSome

/-- Serialization of `User` (serde `Serialize`).  Modelled from the spec for
the absent `models.rs`: the `token` field is optional and "absent" from
bodies when unset, so a `none` token serializes to no field at all. -/
def serializeUser (u : User) : Json :=
  Json.obj
    ([("id", Json.num u.id), ("email", Json.str u.email),
      ("username", Json.str u.username), ("password", Json.str u.password)] ++
      (match u.token with
       | none => []
       | some t => [("token", Json.str t)]))

/-- Serialization of `UserResponse` from `src/web/users.rs`: the user wrapped
in a top-level `"user"` object. -/
def serializeUserResponse (u : User) : Json :=
  Json.obj [("user", serializeUser u)]

/-- `Registration` from `src/web/users.rs`: `{ user: NewUser }`. -/
structure Registration where
  user : NewUser
deriving DecidableEq, Repr

/-- `AuthUser` from `src/web/users.rs`: `{ email, password }`. -/
structure AuthUser where
  email : String
  password : String
deriving DecidableEq, Repr

/-- `AuthRequest` from `src/web/users.rs`: `{ user: AuthUser }`. -/
structure AuthRequest where
  user : AuthUser
deriving DecidableEq, Repr

/-- serde `Deserialize` for `NewUser`: requires string fields `email`,
`username` and `password` (struct shape modelled from the spec, `models.rs`
being absent; all three fields are required strings). -/
def decodeNewUser (j : Json) : Option NewUser :=
  match (j.getField "email").bind Json.getStr,
        (j.getField "username").bind Json.getStr,
        (j.getField "password").bind Json.getStr with
  | some e, some un, some p => some { email := e, username := un, password := p }
  | _, _, _ => none

/-- serde `Deserialize` for `Registration`: requires a `user` field holding a
`NewUser`. -/
def decodeRegistration (j : Json) : Option Registration :=
  match (j.getField "user").bind decodeNewUser with
  | some nu => some { user := nu }
  | none => none

/-- serde `Deserialize` for `AuthUser`: requires string fields `email` and
`password`. -/
def decodeAuthUser (j : Json) : Option AuthUser :=
  match (j.getField "email").bind Json.getStr,
        (j.getField "password").bind Json.getStr with
  | some e, some p => some { email := e, password := p }
  | _, _ => none

/-- serde `Deserialize` for `AuthRequest`: requires a `user` field holding an
`AuthUser`. -/
def decodeAuthRequest (j : Json) : Option AuthRequest :=
  match (j.getField "user").bind decodeAuthUser with
  | some au => some { user := au }
  | none => none

/-! ### HTTP handler layer (`src/web/users.rs`) -/

/-- The observable content of a gotham `HandlerError`: the HTTP status the
framework answers with.  The wrapped cause is only logged, never sent. -/
structure HandlerError where
  status : Nat
deriving DecidableEq, Repr

/-- `bad_request` from `src/web/users.rs`: wraps any error into a handler
error with status `400 BAD_REQUEST`. -/
def bad_request : HandlerError := { status := 400 }

/-- gotham's `into_handler_error()` on a storage error: a handler error with
the default status `500 INTERNAL_SERVER_ERROR`. -/
def intoHandlerError (_e : DieselError) : HandlerError := { status := 500 }

/-- The stages at which a request body can fail before it is a JSON value:
buffering the hyper body (`concat2`), UTF-8 decoding (`from_utf8`), JSON
syntax (`serde_json::from_str`); or it tokenizes to a JSON value, on which
shape validation still runs. -/
inductive Body where
  | bufferFail
  | utf8Fail
  | jsonSyntaxFail
  | json (j : Json)

/-- `extract_json` from `src/web/users.rs`: buffer the body
(`map_err(bad_request)`), decode UTF-8 (`map_err(bad_request)`), parse the
JSON into the expected shape (`map_err(bad_request)`); every failure is
uniformly `bad_request`. -/
def extract_json {T : Type} (decode : Json → Option T) (b : Body) :
    Except HandlerError T :=
  match b with
  | Body.bufferFail => Except.error bad_request
  | Body.utf8Fail => Except.error bad_request
  | Body.jsonSyntaxFail => Except.error bad_request
  | Body.json j =>
    match decode j with
    | some t => Except.ok t
    | none => Except.error bad_request

/-- An HTTP response: status code and an optional JSON body
(`create_empty_response` has no body). -/
structure Response where
  status : Nat
  body : Option Json

/-- Modelled from the spec: `auth.rs` (`encode_token`) is absent.  The spec
says login "mints a signed token embedding the user id" — an opaque signed
credential carrying the user's id as a claim.  We model it as a signed-JWT
shaped string embedding the id. -/
def encode_token (user_id : Int) : String :=
  "header." ++ toString user_id ++ ".signature"

/-- `register` from `src/web/users.rs`: extract a `Registration`, run
`users::insert` (storage errors via `into_handler_error`, default 500), then
on `Ok(user)` serialize **the user itself** (`serde_json::to_string(&user)`,
not a `UserResponse`) into a `200 OK` response; any error is propagated. -/
def register (s : Store) (b : Body) : Except HandlerError (Store × Response) :=
  match extract_json decodeRegistration b with
  | Except.error e => Except.error e
  | Except.ok registration =>
    match Users.insert s registration.user with
    | Except.error e => Except.error (intoHandlerError e)
    | Except.ok (s2, user) =>
      Except.ok (s2, { status := 200, body := some (serializeUser user) })

/-- The `map_err` closure inside `login`: `NotFound` becomes a handler error
with status `401 UNAUTHORIZED`; any other diesel error goes through
`into_handler_error` (status 500). -/
def login_map_err (e : DieselError) : HandlerError :=
  match e with
  | DieselError.NotFound => { status := 401 }
  | e => intoHandlerError e

/-- The user placed in login's success response:
`User { token: Some(encode_token(user.id)), ..user }`. -/
def login_success_user (user : User) : User :=
  { user with token := some (encode_token user.id) }

/-- `login` from `src/web/users.rs`: extract an `AuthRequest`, run
`users::find_by_email_password` with its error mapping, then on `Ok(user)`
respond `200 OK` with the serialized `UserResponse` whose user carries the
freshly minted token; any error is propagated. -/
def login (s : Store) (b : Body) : Except HandlerError Response :=
  match extract_json decodeAuthRequest b with
  | Except.error e => Except.error e
  | Except.ok body =>
    match Users.find_by_email_password s body.user.email body.user.password with
    | Except.error e => Except.error (login_map_err e)
    | Except.ok user =>
      Except.ok { status := 200,
                  body := some (serializeUserResponse (login_success_user user)) }

/-- The `.then(...)` result mapping of `get_user`: `Ok(user)` → `200 OK` with
the serialized `UserResponse`; `Err(NotFound)` → `create_empty_response`
with `401 UNAUTHORIZED`; any other error → `into_handler_error` (500). -/
def get_user_respond (result : Except DieselError User) :
    Except HandlerError Response :=
  match result with
  | Except.ok user =>
    Except.ok { status := 200, body := some (serializeUserResponse user) }
  | Except.error DieselError.NotFound =>
    Except.ok { status := 401, body := none }
  | Except.error e => Except.error (intoHandlerError e)

/-- `get_user` from `src/web/users.rs`: look up the user id carried by the
upstream-validated token's claims (`token.0.claims.user_id()`) and map the
result to a response. -/
def get_user (s : Store) (claim_user_id : Int) : Except HandlerError Response :=
  get_user_respond (Users.find s claim_user_id)

/-- The response the framework finally sends: a handler error turns into a
response with the error's status and no body. -/
def respond : Except HandlerError Response → Response
  | Except.ok r => r
  | Except.error e => { status := e.status, body := none }

/-! ### Operation sequences over the store

The three persistence operations as store transformers: `insert` appends on
success, and the two lookups run read-only queries (`SELECT`s) that leave the
store untouched. -/

inductive Op where
  | opInsert (nu : NewUser)
  | opFind (user_id : Int)
  | opFindByEmailPassword (user_email user_password : String)

/-- Effect of one persistence operation on the store. -/
def applyOp (s : Store) : Op → Store
  | Op.opInsert nu =>
    match Users.insert s nu with
    | Except.ok (s2, _) => s2
    | Except.error _ => s
  | Op.opFind _ => s
  | Op.opFindByEmailPassword _ _ => s

/-! ### Concrete fixtures (the spec's worked example: alice) -/

/-- The registration payload of the spec's example: `a@x.com` / `alice` /
`secret`. -/
def nuA : NewUser :=
  { email := "a@x.com", username := "alice", password := "secret" }

/-- The stored row resulting from inserting `nuA` into an empty store. -/
def userA : User :=
  { id := 1, email := "a@x.com", username := "alice", password := "secret",
    token := none }

/-- The empty store. -/
def store0 : Store := { rows := [], nextId := 1 }

/-- The store after registering alice. -/
def store1 : Store := { rows := [userA], nextId := 2 }

/-- The registration request body `{"user":{"email":"a@x.com","username":
"alice","password":"secret"}}`. -/
def regBodyA : Json :=
  Json.obj [("user",
    Json.obj [("email", Json.str "a@x.com"), ("username", Json.str "alice"),
              ("password", Json.str "secret")])]

/-- The login request body `{"user":{"email":"a@x.com","password":
"secret"}}`. -/
def loginBodyA : Json :=
  Json.obj [("user",
    Json.obj [("email", Json.str "a@x.com"), ("password", Json.str "secret")])]

/-- A login request body for a never-registered email. -/
def loginBodyUnknown : Json :=
  Json.obj [("user",
    Json.obj [("email", Json.str "b@x.com"), ("password", Json.str "secret")])]

/-- A registration body missing the `password` field. -/
def regBodyNoPassword : Json :=
  Json.obj [("user",
    Json.obj [("email", Json.str "a@x.com"), ("username", Json.str "alice")])]

/-! ### Helper lemmas -/

/-- Anatomy of a successful insert: the returned user carries the payload's
fields and the freshly assigned id, and the new store appends exactly that
row. -/
theorem insert_ok_elim {s : Store} {nu : NewUser} {s2 : Store} {u : User}
    (h : Users.insert s nu = Except.ok (s2, u)) :
    u.id = s.nextId ∧ u.email = nu.email ∧ u.username = nu.username ∧
    u.password = nu.password ∧ u.token = none ∧
    s2.rows = s.rows ++ [u] ∧ s2.nextId = s.nextId + 1 := by
  unfold Users.insert at h
  split at h
  · exact absurd h (by simp)
  · simp only [Except.ok.injEq, Prod.mk.injEq] at h
    obtain ⟨hs, hu⟩ := h
    subst hu
    subst hs
    simp

/-- In a list of users with pairwise-distinct emails, the first row matching
a member's email and password is that member itself. -/
theorem find_first_of_unique_email (l : List User) (u : User)
    (hp : l.Pairwise fun a b => a.email ≠ b.email) (hu : u ∈ l) :
    l.find? (fun r => r.email == u.email && r.password == u.password) = some u := by
  induction l with
  | nil => cases hu
  | cons x xs ih =>
    rcases List.mem_cons.mp hu with h | h
    · subst h
      exact List.find?_cons_of_pos _ (by simp)
    · have hx : x.email ≠ u.email := (List.pairwise_cons.mp hp).1 u h
      rw [List.find?_cons_of_neg _ (by simp [hx])]
      exact ih (List.pairwise_cons.mp hp).2 h

/-- When no row matches both the email and the password, the lookup fails
with diesel's `NotFound`. -/
theorem fbep_not_found (s : Store) (e p : String)
    (h : ∀ r ∈ s.rows, ¬(r.email = e ∧ r.password = p)) :
    Users.find_by_email_password s e p = Except.error DieselError.NotFound := by
  unfold Users.find_by_email_password
  have hnone : s.rows.find? (fun r => r.email == e && r.password == p) = none := by
    rw [List.find?_eq_none]
    intro x hx
    simpa using h x hx
  rw [hnone]

/-! ### Claim theorems -/

/-- C2: inserting a `NewUser` into a well-formed store and then calling
`find` with the id of the returned `User` yields that very user, whose
email, username and password equal those of the inserted payload, and whose
id was newly assigned — equal to no previously stored user's id. -/
theorem insert_find_roundtrip (s : Store) (nu : NewUser) (s2 : Store)
    (u : User) (hwf : s.wf) (h : Users.insert s nu = Except.ok (s2, u)) :
    Users.find s2 u.id = Except.ok u
  ∧ u.email = nu.email ∧ u.username = nu.username ∧ u.password = nu.password
  ∧ ∀ r ∈ s.rows, r.id ≠ u.id := by
  obtain ⟨hid, hem, hun, hpw, htk, hrows, hnext⟩ := insert_ok_elim h
  have hfresh : ∀ r ∈ s.rows, r.id ≠ u.id := by
    intro r hr
    have hlt := hwf.1 r hr
    omega
  refine ⟨?_, hem, hun, hpw, hfresh⟩
  have hfind : s2.rows.find? (fun r => r.id == u.id) = some u := by
    rw [hrows, List.find?_append]
    have h1 : s.rows.find? (fun r => r.id == u.id) = none := by
      rw [List.find?_eq_none]
      intro x hx
      simp [hfresh x hx]
    rw [h1]
    simp
  unfold Users.find
  rw [hfind]

/-- C2 witness: registering alice on the empty store. -/
theorem insert_find_roundtrip_witness :
    Users.find store1 userA.id = Except.ok userA
  ∧ userA.email = nuA.email ∧ userA.username = nuA.username
  ∧ userA.password = nuA.password
  ∧ ∀ r ∈ store0.rows, r.id ≠ userA.id :=
  insert_find_roundtrip store0 nuA store1 userA
    ⟨fun r hr => by simp [store0] at hr, List.Pairwise.nil⟩ rfl

/-- C3: in a well-formed store, `find_by_email_password` called with exactly
a stored user's email and password returns that same user; called with an
email/password pair matched by no row, it fails with `NotFound`. -/
theorem find_by_email_password_spec (s : Store) (hwf : s.wf) :
    (∀ u ∈ s.rows,
       Users.find_by_email_password s u.email u.password = Except.ok u)
  ∧ (∀ e p, (∀ r ∈ s.rows, ¬(r.email = e ∧ r.password = p)) →
       Users.find_by_email_password s e p = Except.error DieselError.NotFound) := by
  constructor
  · intro u hu
    unfold Users.find_by_email_password
    rw [find_first_of_unique_email s.rows u hwf.2 hu]
  · intro e p h
    exact fbep_not_found s e p h

/-- C3 witness: alice's store, alice's credentials, then a wrong password. -/
theorem find_by_email_password_spec_witness :
    Users.find_by_email_password store1 userA.email userA.password =
      Except.ok userA
  ∧ Users.find_by_email_password store1 "a@x.com" "wrong" =
      Except.error DieselError.NotFound :=
  ⟨(find_by_email_password_spec store1
      ⟨by decide, List.pairwise_singleton _ _⟩).1 userA (by simp [store1]),
   (find_by_email_password_spec store1
      ⟨by decide, List.pairwise_singleton _ _⟩).2 "a@x.com" "wrong" (by decide)⟩

/-- C4: when the login body parses and the credential lookup succeeds, the
handler responds `200` with `{ user: <User with token set> }`, the minted
token embeds the found user's id, and the token string in the body is
non-empty. -/
theorem login_success (s : Store) (b : Body) (req : AuthRequest) (u : User)
    (h1 : extract_json decodeAuthRequest b = Except.ok req)
    (h2 : Users.find_by_email_password s req.user.email req.user.password =
            Except.ok u) :
    login s b = Except.ok
      { status := 200,
        body := some (serializeUserResponse (login_success_user u)) }
  ∧ ((serializeUserResponse (login_success_user u)).getField "user").bind
      (fun ju => (ju.getField "token").bind Json.getStr) =
        some (encode_token u.id)
  ∧ encode_token u.id ≠ "" := by
  refine ⟨?_, ?_, ?_⟩
  · simp [login, h1, h2]
  · simp [serializeUserResponse, serializeUser, login_success_user,
          Json.getField, lookupField, Json.getStr]
  · intro hcon
    have hlen := congrArg String.length hcon
    rw [encode_token, String.length_append, String.length_append] at hlen
    have h7 : "header.".length = 7 := rfl
    have h10 : ".signature".length = 10 := rfl
    have h0 : "".length = 0 := rfl
    omega

/-- C4 witness: logging in as alice. -/
theorem login_success_witness :
    login store1 (Body.json loginBodyA) = Except.ok
      { status := 200,
        body := some (serializeUserResponse (login_success_user userA)) }
  ∧ ((serializeUserResponse (login_success_user userA)).getField "user").bind
      (fun ju => (ju.getField "token").bind Json.getStr) =
        some (encode_token userA.id)
  ∧ encode_token userA.id ≠ "" :=
  login_success store1 (Body.json loginBodyA)
    { user := { email := "a@x.com", password := "secret" } } userA rfl rfl

/-- C5: when the login body parses but no stored row matches the submitted
email/password pair, the handler errors with status `401` and the framework
response carries no body (hence no token); any other storage error maps
through `into_handler_error` to the generic status `500`. -/
theorem login_unauthorized (s : Store) (b : Body) (req : AuthRequest)
    (h1 : extract_json decodeAuthRequest b = Except.ok req)
    (h2 : ∀ r ∈ s.rows,
            ¬(r.email = req.user.email ∧ r.password = req.user.password)) :
    login s b = Except.error { status := 401 }
  ∧ respond (login s b) = { status := 401, body := none }
  ∧ ∀ info, login_map_err (DieselError.DatabaseError info) =
      intoHandlerError (DieselError.DatabaseError info)
    ∧ (intoHandlerError (DieselError.DatabaseError info)).status = 500 := by
  have hfb := fbep_not_found s req.user.email req.user.password h2
  have hlog : login s b = Except.error { status := 401 } := by
    simp [login, h1, hfb, login_map_err]
  exact ⟨hlog, by rw [hlog]; rfl, fun info => ⟨rfl, rfl⟩⟩

/-- C5 witness: logging in with a never-registered email. -/
theorem login_unauthorized_witness :
    login store1 (Body.json loginBodyUnknown) = Except.error { status := 401 }
  ∧ respond (login store1 (Body.json loginBodyUnknown)) =
      { status := 401, body := none }
  ∧ ∀ info, login_map_err (DieselError.DatabaseError info) =
      intoHandlerError (DieselError.DatabaseError info)
    ∧ (intoHandlerError (DieselError.DatabaseError info)).status = 500 :=
  login_unauthorized store1 (Body.json loginBodyUnknown)
    { user := { email := "b@x.com", password := "secret" } } rfl (by decide)

/-- C6: `get_user` answers `401` with an empty body when the claimed id
matches no stored user, `200` with the wrapped user when it does, and a
storage failure other than `NotFound` propagates as an error of status
`500`. -/
theorem get_user_spec (s : Store) (claim_user_id : Int) :
    (Users.find s claim_user_id = Except.error DieselError.NotFound →
       get_user s claim_user_id = Except.ok { status := 401, body := none })
  ∧ (∀ u, Users.find s claim_user_id = Except.ok u →
       get_user s claim_user_id =
         Except.ok { status := 200, body := some (serializeUserResponse u) })
  ∧ (∀ info, get_user_respond (Except.error (DieselError.DatabaseError info)) =
       Except.error { status := 500 }) := by
  refine ⟨fun h => ?_, fun u h => ?_, fun info => rfl⟩
  · simp [get_user, h, get_user_respond]
  · simp [get_user, h, get_user_respond]

/-- C6 witness: alice's store with an unknown id, alice's id, and a
connection failure. -/
theorem get_user_spec_witness :
    get_user store1 99 = Except.ok { status := 401, body := none }
  ∧ get_user store1 1 =
      Except.ok { status := 200, body := some (serializeUserResponse userA) }
  ∧ get_user_respond
      (Except.error (DieselError.DatabaseError "connection failure")) =
        Except.error { status := 500 } :=
  ⟨(get_user_spec store1 99).1 rfl,
   (get_user_spec store1 1).2.1 userA rfl,
   (get_user_spec store1 1).2.2 "connection failure"⟩

/-- C7: for register and login alike, a failure while buffering the body,
decoding it as UTF-8, or parsing it as JSON, as well as a JSON body of the
wrong shape, uniformly yields the `bad_request` error of status `400`; in
particular a registration body missing the `password` field does. -/
theorem extract_json_failures_are_400 (s : Store) :
    (∀ b : Body, (∀ j, b ≠ Body.json j) →
        register s b = Except.error bad_request
      ∧ login s b = Except.error bad_request)
  ∧ (∀ j, decodeRegistration j = none →
        register s (Body.json j) = Except.error bad_request)
  ∧ (∀ j, decodeAuthRequest j = none →
        login s (Body.json j) = Except.error bad_request)
  ∧ register s (Body.json regBodyNoPassword) = Except.error bad_request
  ∧ bad_request.status = 400 := by
  refine ⟨fun b hb => ?_, fun j hj => ?_, fun j hj => ?_, rfl, rfl⟩
  · cases b with
    | bufferFail => exact ⟨rfl, rfl⟩
    | utf8Fail => exact ⟨rfl, rfl⟩
    | jsonSyntaxFail => exact ⟨rfl, rfl⟩
    | json j => exact absurd rfl (hb j)
  · simp [register, extract_json, hj]
  · simp [login, extract_json, hj]

/-- C7 witness: a buffering failure, a UTF-8 failure, a JSON-syntax failure,
and the password-less registration body. -/
theorem extract_json_failures_witness :
    register store0 Body.bufferFail = Except.error bad_request
  ∧ login store0 Body.utf8Fail = Except.error bad_request
  ∧ register store0 Body.jsonSyntaxFail = Except.error bad_request
  ∧ register store0 (Body.json regBodyNoPassword) = Except.error bad_request :=
  ⟨((extract_json_failures_are_400 store0).1 Body.bufferFail
      (fun _ h => Body.noConfusion h)).1,
   ((extract_json_failures_are_400 store0).1 Body.utf8Fail
      (fun _ h => Body.noConfusion h)).2,
   ((extract_json_failures_are_400 store0).1 Body.jsonSyntaxFail
      (fun _ h => Body.noConfusion h)).1,
   (extract_json_failures_are_400 store0).2.2.2.1⟩

/-- C8: across every sequence of the three persistence operations, the rows
present before remain an unchanged prefix of the rows after — no stored row
is ever updated or deleted, so each row (id, email, username, password
included) survives every subsequent operation intact. -/
theorem rows_append_only (s : Store) (ops : List Op) :
    (∃ t, (ops.foldl applyOp s).rows = s.rows ++ t)
  ∧ ∀ r ∈ s.rows, r ∈ (ops.foldl applyOp s).rows := by
  have main : ∃ t, (ops.foldl applyOp s).rows = s.rows ++ t := by
    induction ops generalizing s with
    | nil => exact ⟨[], by simp⟩
    | cons op ops ih =>
      obtain ⟨t1, h1⟩ := ih (applyOp s op)
      obtain ⟨t0, h0⟩ : ∃ t0, (applyOp s op).rows = s.rows ++ t0 := by
        cases op with
        | opInsert nu =>
          cases hins : Users.insert s nu with
          | error e => exact ⟨[], by simp [applyOp, hins]⟩
          | ok p =>
            obtain ⟨s2, u⟩ := p
            obtain ⟨_, _, _, _, _, hrows, _⟩ := insert_ok_elim hins
            exact ⟨[u], by simp [applyOp, hins, hrows]⟩
        | opFind uid => exact ⟨[], by simp [applyOp]⟩
        | opFindByEmailPassword e p => exact ⟨[], by simp [applyOp]⟩
      exact ⟨t0 ++ t1, by rw [List.foldl_cons, h1, h0, List.append_assoc]⟩
  obtain ⟨t, ht⟩ := main
  exact ⟨⟨t, ht⟩, fun r hr => by rw [ht]; exact List.mem_append_left t hr⟩

/-- C9: a `find` runs a pure `SELECT`: as a store operation it leaves the
store untouched, so a repeated `find(id)` with no insert in between — the
second call running on the store left by the first — returns the identical
result. -/
theorem find_no_mutation (s : Store) (user_id : Int) :
    applyOp s (Op.opFind user_id) = s
  ∧ Users.find (applyOp s (Op.opFind user_id)) user_id =
      Users.find s user_id :=
  ⟨rfl, rfl⟩

/-- C10: on a successful login, the response body wraps exactly the stored
user with only the token replaced: id, email, username and the stored
plaintext password are copied unchanged, and the token becomes the freshly
minted token for that user's id. -/
theorem login_response_preserves_user (s : Store) (b : Body)
    (req : AuthRequest) (u : User)
    (h1 : extract_json decodeAuthRequest b = Except.ok req)
    (h2 : Users.find_by_email_password s req.user.email req.user.password =
            Except.ok u) :
    login s b = Except.ok
      { status := 200,
        body := some (serializeUserResponse (login_success_user u)) }
  ∧ (login_success_user u).id = u.id
  ∧ (login_success_user u).email = u.email
  ∧ (login_success_user u).username = u.username
  ∧ (login_success_user u).password = u.password
  ∧ (login_success_user u).token = some (encode_token u.id) := by
  exact ⟨by simp [login, h1, h2], rfl, rfl, rfl, rfl, rfl⟩

/-- C10 witness: alice's login response preserves her stored row. -/
theorem login_response_preserves_user_witness :
    login store1 (Body.json loginBodyA) = Except.ok
      { status := 200,
        body := some (serializeUserResponse (login_success_user userA)) }
  ∧ (login_success_user userA).id = userA.id
  ∧ (login_success_user userA).email = userA.email
  ∧ (login_success_user userA).username = userA.username
  ∧ (login_success_user userA).password = userA.password
  ∧ (login_success_user userA).token = some (encode_token userA.id) :=
  login_response_preserves_user store1 (Body.json loginBodyA)
    { user := { email := "a@x.com", password := "secret" } } userA rfl rfl

/-- C1: evaluation at the failing input.  Registering alice on the empty
store parses and inserts successfully and the handler answers `200`, but the
body is the serialized `User` itself — `serde_json::to_string(&user)` — with
no top-level `"user"` wrapper (contrast `serializeUserResponse`, the shape
the claim demands and the one `login` and `get_user` produce); the `token`
field is indeed absent. -/
theorem register_body_not_wrapped :
    register store0 (Body.json regBodyA) = Except.ok
      (store1, { status := 200, body := some (serializeUser userA) })
  ∧ Json.hasField (serializeUser userA) "user" = false
  ∧ Json.hasField (serializeUserResponse userA) "user" = true
  ∧ Json.hasField (serializeUser userA) "token" = false
  ∧ Json.hasField (serializeUser userA) "email" = true :=
  ⟨rfl, rfl, rfl, rfl, rfl⟩


end RealworldGotham
